import Mathlib

/-!
Verification of the viewport-transform and demand-loading core of the
svelte-otel-app repository, shallowly embedded in Lean 4.

JavaScript numbers are modelled by exact rationals; machine randomness
(Math.random outputs, all in the half-open unit interval) is externalised
as explicit parameters or streams of rationals.  Sources embedded:
  - src/src/lib/components/InfiniteCanvas.svelte (pan, wheel zoom,
    debounced fetch, store merge, viewport culling)
  - src/src/lib/components/Widget.svelte (bundled MockApiService:
    generateRandomId, shouldSimulateError, simulateError, fetchWidgetData,
    fetchAllWidgets; bundled stores.ts)
  - src/src/routes/+page.svelte (initial load, fetch-more button)
-/

namespace SvelteOtelApp

/-- Widget record, from src/src/lib/types.ts (WidgetData).  Positions are
world coordinates. -/
structure WidgetData where
  id : String
  title : String
  content : String
  x : ℚ
  y : ℚ
deriving DecidableEq, Repr

/-- Canvas transform state, from src/src/lib/types.ts (CanvasTransform). -/
structure CanvasTransform where
  panX : ℚ
  panY : ℚ
  zoom : ℚ
deriving DecidableEq, Repr

/-- Pan handler, from InfiniteCanvas.svelte handleMouseMove (lines 108-121):
panX (panY) is increased by the screen-pixel delta divided by the current
zoom; zoom is untouched and nothing is clamped. -/
def handleMouseMove (t : CanvasTransform) (dx dy : ℚ) : CanvasTransform :=
  { t with panX := t.panX + dx / t.zoom, panY := t.panY + dy / t.zoom }

/-- Multiplicative zoom step, from InfiniteCanvas.svelte handleWheel
(line 147): const zoomFactor = 1.15. -/
def zoomFactor : ℚ := 1.15

/-- Requested (pre-clamp) zoom, from handleWheel line 150:
deltaY < 0 zooms in (multiply), otherwise zoom out (divide). -/
def wheelTargetZoom (t : CanvasTransform) (deltaY : ℚ) : ℚ :=
  if deltaY < 0 then t.zoom * zoomFactor else t.zoom / zoomFactor

/-- Zoom clamping, from handleWheel line 151:
Math.max(0.1, Math.min(newZoom, 10)). -/
def clampZoom (z : ℚ) : ℚ := max 0.1 (min z 10)

/-- Wheel handler, from InfiniteCanvas.svelte handleWheel (lines 146-196),
with the mouse position already taken relative to the canvas viewport
(mouseXInViewport / mouseYInViewport).  Returns the resulting transform and
whether a debounced fetch was scheduled (the call to triggerDebouncedFetch
on line 195).  When the clamped zoom equals the old zoom the handler
returns early (lines 162-167) leaving the transform untouched. -/
def handleWheel (t : CanvasTransform) (deltaY px py : ℚ) : CanvasTransform × Bool :=
  let oldZoom := t.zoom
  let clampedZoom := clampZoom (wheelTargetZoom t deltaY)
  if clampedZoom = oldZoom then
    (t, false)
  else
    let mouseXWorld := px / oldZoom - t.panX
    let mouseYWorld := py / oldZoom - t.panY
    ({ panX := px / clampedZoom - mouseXWorld,
       panY := py / clampedZoom - mouseYWorld,
       zoom := clampedZoom }, true)

/-- Viewport culling, from InfiniteCanvas.svelte isWidgetInView
(lines 305-318): the widget occupies a fixed 220 by 150 world rectangle;
the viewport world rectangle is inflated by a buffer of 100/zoom on every
side; visibility is strict axis-aligned rectangle overlap. -/
def isWidgetInView (widget : WidgetData) (currentTransform : CanvasTransform)
    (viewportWidth viewportHeight : ℚ) : Bool :=
  let widgetWidthWorld : ℚ := 220
  let widgetHeightWorld : ℚ := 150
  let buffer := 100 / currentTransform.zoom
  let w_left := widget.x
  let w_right := widget.x + widgetWidthWorld
  let w_top := widget.y
  let w_bottom := widget.y + widgetHeightWorld
  let v_left := -currentTransform.panX - buffer
  let v_top := -currentTransform.panY - buffer
  let v_right := -currentTransform.panX + viewportWidth / currentTransform.zoom + buffer
  let v_bottom := -currentTransform.panY + viewportHeight / currentTransform.zoom + buffer
  decide (w_left < v_right ∧ w_right > v_left ∧ w_top < v_bottom ∧ w_bottom > v_top)

/-- Screen-to-world conversion used throughout InfiniteCanvas.svelte
(handleWheel lines 172-173, fetch center lines 250-251):
world = screen / zoom - pan. -/
def worldOfScreen (t : CanvasTransform) (s : ℚ × ℚ) : ℚ × ℚ :=
  (s.1 / t.zoom - t.panX, s.2 / t.zoom - t.panY)

/-- World-to-screen conversion: the inverse of the screen-to-world map the
code uses, namely screen = (world + pan) * zoom. -/
def screenOfWorld (t : CanvasTransform) (w : ℚ × ℚ) : ℚ × ℚ :=
  ((w.1 + t.panX) * t.zoom, (w.2 + t.panY) * t.zoom)

/-- Error categories, from src/src/lib/types.ts (ApiErrorType). -/
inductive ApiErrorType where
  | NetworkError
  | APIError
  | NotFoundError
deriving DecidableEq, Repr

/-- Originating request parameters carried by a simulated error
(requestParams in MockApiService). -/
inductive RequestParams where
  | widgetRequest (widgetId : String)
  | batchRequest (count : ℕ) (currentPanX currentPanY currentZoom : ℚ)
deriving DecidableEq, Repr

/-- Simulated API error record, from src/src/lib/types.ts (SimulatedError)
and MockApiService.simulateError. -/
structure SimulatedError where
  message : String
  errorType : ApiErrorType
  status : Option ℕ
  timestamp : String
  requestParams : RequestParams
  simulatedStackTrace : String
deriving DecidableEq, Repr

/-- Mock widget titles, from MockApiService (MOCK_WIDGET_TITLES). -/
def MOCK_WIDGET_TITLES : List String :=
  ["Alpha Widget", "Bravo Item", "Charlie Component", "Delta Module", "Echo Element"]

/-- Mock widget contents, from MockApiService (MOCK_WIDGET_CONTENTS). -/
def MOCK_WIDGET_CONTENTS : List String :=
  ["This is some detailed content for the widget.",
   "Another piece of insightful information.",
   "Lorem ipsum dolor sit amet, consectetur adipiscing elit.",
   "Sed do eiusmod tempor incididunt ut labore et dolore magna aliqua.",
   "Ut enim ad minim veniam, quis nostrud exercitation ullamco laboris nisi ut aliquip ex ea commodo consequat."]

/-- The randomness one MockApiService call consumes, externalised: every
field stands for one or a stream of Math.random() outcomes (rationals in
the half-open unit interval), and genId for the generateRandomId outcomes
used for the batch elements. -/
structure FetchRandom where
  errDraw : ℚ
  errPick : ℚ
  stackLine1 : ℚ
  stackLine2 : ℚ
  genId : ℕ → String
  titleDraw : ℕ → ℚ
  contentDraw : ℕ → ℚ
  xDraw : ℕ → ℚ
  yDraw : ℕ → ℚ

/-- Bernoulli error decision, from MockApiService.shouldSimulateError
(Widget.svelte bundle, lines 97-99): Math.random() < this.errorRate. -/
def shouldSimulateError (rand errorRate : ℚ) : Bool :=
  decide (rand < errorRate)

/-- The four fixed error templates of MockApiService.simulateError. -/
def errorTemplates : List (ApiErrorType × String × Option ℕ) :=
  [(ApiErrorType.NetworkError, ("Network timeout. Please check your connection.", none)),
   (ApiErrorType.APIError, ("Internal Server Error", some 500)),
   (ApiErrorType.NotFoundError, ("Resource Not Found", some 404)),
   (ApiErrorType.APIError, ("Invalid request parameters", some 400))]

/-- Error construction, from MockApiService.simulateError (lines 101-120):
pick one of the four templates uniformly (Math.floor(rand * 4)) and attach
timestamp, request parameters and a synthetic stack trace whose line
numbers come from two further random draws. -/
def simulateError (pick : ℚ) (requestParams : RequestParams) (timestamp : String)
    (line1 line2 : ℚ) : SimulatedError :=
  let tpl := errorTemplates.getD (Int.toNat ⌊pick * 4⌋)
    (ApiErrorType.NetworkError, ("Network timeout. Please check your connection.", none))
  { message := tpl.2.1
    errorType := tpl.1
    status := tpl.2.2
    timestamp := timestamp
    requestParams := requestParams
    simulatedStackTrace :=
      "Error: " ++ tpl.2.1 ++
      "\n    at MockApiService.simulateError (MockApiService.ts:" ++
      toString (Int.toNat ⌊line1 * 20⌋ + 50) ++
      ")\n    at <calling_method> (MockApiService.ts:" ++
      toString (Int.toNat ⌊line2 * 20⌋ + 80) ++ ")" }

/-- Single-widget fetch, from MockApiService.fetchWidgetData
(lines 122-145), with the latency elapsed: the timeout body either rejects
(when the Bernoulli draw succeeds) or resolves with a widget at a random
integer position in the square from -500 to 500. -/
def fetchWidgetData (rnd : FetchRandom) (errorRate : ℚ) (widgetId : String)
    (timestamp : String) : Except SimulatedError WidgetData :=
  if shouldSimulateError rnd.errDraw errorRate then
    Except.error (simulateError rnd.errPick (RequestParams.widgetRequest widgetId)
      timestamp rnd.stackLine1 rnd.stackLine2)
  else
    Except.ok
      { id := widgetId
        title := MOCK_WIDGET_TITLES.getD
          (Int.toNat ⌊rnd.titleDraw 0 * (MOCK_WIDGET_TITLES.length : ℚ)⌋) ("")
        content := MOCK_WIDGET_CONTENTS.getD
          (Int.toNat ⌊rnd.contentDraw 0 * (MOCK_WIDGET_CONTENTS.length : ℚ)⌋) ("")
        x := ((⌊rnd.xDraw 0 * 1000 - 500⌋ : ℤ) : ℚ)
        y := ((⌊rnd.yDraw 0 * 1000 - 500⌋ : ℤ) : ℚ) }

/-- Spawn radius, from MockApiService.fetchAllWidgets (line 163):
300 / currentZoom. -/
def spawnRadius (currentZoom : ℚ) : ℚ := 300 / currentZoom

/-- Batch fetch, from MockApiService.fetchAllWidgets (lines 147-176), with
the latency elapsed: the timeout body either rejects (when the Bernoulli
draw succeeds) or resolves with count widgets, each with a fresh
generateRandomId outcome and a position uniform in the spawn square
centred on (currentPanX, currentPanY). -/
def fetchAllWidgets (rnd : FetchRandom) (errorRate : ℚ) (count : ℕ)
    (currentPanX currentPanY currentZoom : ℚ) (timestamp : String) :
    Except SimulatedError (List WidgetData) :=
  if shouldSimulateError rnd.errDraw errorRate then
    Except.error (simulateError rnd.errPick
      (RequestParams.batchRequest count currentPanX currentPanY currentZoom)
      timestamp rnd.stackLine1 rnd.stackLine2)
  else
    Except.ok ((List.range count).map (fun i =>
      { id := rnd.genId i
        title := (MOCK_WIDGET_TITLES.getD
          (Int.toNat ⌊rnd.titleDraw i * (MOCK_WIDGET_TITLES.length : ℚ)⌋) ("")) ++
          " #" ++ toString (i + 1)
        content := MOCK_WIDGET_CONTENTS.getD
          (Int.toNat ⌊rnd.contentDraw i * (MOCK_WIDGET_CONTENTS.length : ℚ)⌋) ("")
        x := currentPanX + (rnd.xDraw i * spawnRadius currentZoom * 2 - spawnRadius currentZoom)
        y := currentPanY + (rnd.yDraw i * spawnRadius currentZoom * 2 - spawnRadius currentZoom) }))

/-- Whether a mock call rejected. -/
def callRejected {α : Type} : Except SimulatedError α → Bool
  | Except.error _ => true
  | Except.ok _ => false

/-- Widget-store merge of a debounce-triggered fetch result, from
InfiniteCanvas.svelte fetchWidgetsForCurrentView (lines 268-280): filter
the incoming batch to ids not already present (the existingIds set is
modelled by list membership) and append the survivors; when nothing
survives return the current collection itself. -/
def mergeInteractionFetch (current newWidgets : List WidgetData) : List WidgetData :=
  let existingIds := current.map (fun w => w.id)
  let trulyNewWidgets := newWidgets.filter (fun nw => !existingIds.contains nw.id)
  if trulyNewWidgets.length > 0 then current ++ trulyNewWidgets else current

/-- The three ways the Widget Store is written during a session:
the initial load replaces the collection (widgets.set(newWidgets),
+page.svelte line 88), the manual fetch-more button appends without any
dedup (widgets.update(cur => [...cur, ...newWidgets]), +page.svelte
lines 34-47), and the debounce-triggered merge filters by id
(fetchWidgetsForCurrentView).  Each operation carries the batch the mock
service resolved with. -/
inductive StoreOp where
  | initialLoad (batch : List WidgetData)
  | fetchMore (batch : List WidgetData)
  | debounceMerge (batch : List WidgetData)
deriving DecidableEq, Repr

/-- Effect of one store operation on the Widget Store contents. -/
def applyStoreOp (s : List WidgetData) : StoreOp → List WidgetData
  | StoreOp.initialLoad batch => batch
  | StoreOp.fetchMore batch => s ++ batch
  | StoreOp.debounceMerge batch => mergeInteractionFetch s batch

/-- Widget Store contents after a session of store operations, starting
from the empty store (stores.ts: writable([])). -/
def runStoreOps (ops : List StoreOp) : List WidgetData :=
  ops.foldl applyStoreOp []

/-- The identifiers held by a store or a batch. -/
def storeIds (s : List WidgetData) : List String := s.map (fun w => w.id)

/-- The batch an operation delivers. -/
def opBatch : StoreOp → List WidgetData
  | StoreOp.initialLoad batch => batch
  | StoreOp.fetchMore batch => batch
  | StoreOp.debounceMerge batch => batch

/-- All id-generator outcomes consumed during a session, in order:
every widget of every delivered batch carries one generateRandomId
outcome (MockApiService, Widget.svelte bundle lines 55-57). -/
def generatedIds (ops : List StoreOp) : List String :=
  (ops.map (fun op => storeIds (opBatch op))).flatten

/-- A fetch request issued to MockApiService.fetchAllWidgets. -/
structure FetchRequest where
  count : ℕ
  centerX : ℚ
  centerY : ℚ
  zoom : ℚ
deriving DecidableEq, Repr

/-- The request a debounce-triggered fetch issues, from
fetchWidgetsForCurrentView (lines 250-266): count 1 at the current world
view center. -/
def debounceFetchRequest (t : CanvasTransform) (viewportWidth viewportHeight : ℚ) :
    FetchRequest :=
  { count := 1
    centerX := viewportWidth / 2 / t.zoom - t.panX
    centerY := viewportHeight / 2 / t.zoom - t.panY
    zoom := t.zoom }

/-- The request the initial load issues, from +page.svelte onMount
(lines 85-87): count 5 at the initial world view center. -/
def initialLoadRequest (t : CanvasTransform) (windowWidth windowHeight : ℚ) :
    FetchRequest :=
  { count := 5
    centerX := windowWidth / 2 / t.zoom - t.panX
    centerY := windowHeight / 2 / t.zoom - t.panY
    zoom := t.zoom }

/-- The request the manual fetch-more button issues, from +page.svelte
fetchMoreWidgets (line 39): count 3 at the current world view center. -/
def fetchMoreRequest (t : CanvasTransform) (windowWidth windowHeight : ℚ) :
    FetchRequest :=
  { count := 3
    centerX := -t.panX + windowWidth / 2 / t.zoom
    centerY := -t.panY + windowHeight / 2 / t.zoom
    zoom := t.zoom }

/-- State touched by the debounced interaction-fetch machinery of
InfiniteCanvas.svelte: the widget store, the shared loading flag, the
user-visible error slot, whether a debounce timeout is scheduled, and how
many debounce-triggered mock calls are in flight. -/
structure CanvasFetchState where
  widgets : List WidgetData
  isLoadingWidgets : Bool
  apiError : Option String
  timerPending : Bool
  inFlight : ℕ
deriving DecidableEq, Repr

/-- Effect of triggerDebouncedFetch (lines 221-228): any pending timer is
superseded and a fresh one is scheduled. -/
def triggerDebouncedFetchStep (s : CanvasFetchState) : CanvasFetchState :=
  { s with timerPending := true }

/-- Effect of the debounce timer firing, i.e. the synchronous prefix of
fetchWidgetsForCurrentView (lines 230-237): if the loading flag is set the
routine returns at once (the timer is consumed, nothing is re-queued and
no mock call starts); otherwise it sets the loading flag, clears the error
slot and starts one fetchAllWidgets call. -/
def timerFireStep (s : CanvasFetchState) : CanvasFetchState :=
  if s.isLoadingWidgets then
    { s with timerPending := false }
  else
    { s with timerPending := false, isLoadingWidgets := true,
             apiError := none, inFlight := s.inFlight + 1 }

/-- Effect of a debounce-triggered fetch resolving (lines 268-280 and the
finally block, lines 295-300): merge the batch and clear the loading
flag. -/
def fetchSuccessStep (batch : List WidgetData) (s : CanvasFetchState) : CanvasFetchState :=
  { s with widgets := mergeInteractionFetch s.widgets batch,
           isLoadingWidgets := false, inFlight := s.inFlight - 1 }

/-- Effect of a debounce-triggered fetch rejecting (catch block,
lines 288-294, and the finally block): surface the message in the error
slot, leave the widget store alone and clear the loading flag. -/
def fetchErrorStep (e : SimulatedError) (s : CanvasFetchState) : CanvasFetchState :=
  { s with apiError := some ("Interaction fetch failed: " ++
             (if e.message = "" then "Unknown error" else e.message)),
           isLoadingWidgets := false, inFlight := s.inFlight - 1 }

/-- Event-step relation of the single-threaded canvas component: a user
interaction may always retrigger the debounce; the timer can fire only
when scheduled; a fetch can complete only when one is in flight. -/
inductive CanvasStep : CanvasFetchState → CanvasFetchState → Prop where
  | trigger (s : CanvasFetchState) : CanvasStep s (triggerDebouncedFetchStep s)
  | timerFire (s : CanvasFetchState) :
      s.timerPending = true → CanvasStep s (timerFireStep s)
  | fetchSuccess (s : CanvasFetchState) (batch : List WidgetData) :
      0 < s.inFlight → CanvasStep s (fetchSuccessStep batch s)
  | fetchError (s : CanvasFetchState) (e : SimulatedError) :
      0 < s.inFlight → CanvasStep s (fetchErrorStep e s)

/-- Component state at mount: empty store, loading flag clear, no error,
no timer, nothing in flight (stores.ts defaults). -/
def initialCanvasState : CanvasFetchState :=
  { widgets := [], isLoadingWidgets := false, apiError := none,
    timerPending := false, inFlight := 0 }

/-- States the canvas component can reach from mount. -/
inductive CanvasReachable : CanvasFetchState → Prop where
  | init : CanvasReachable initialCanvasState
  | step (s s' : CanvasFetchState) :
      CanvasReachable s → CanvasStep s s' → CanvasReachable s'

/-! ## Helper lemmas -/

/-- The merge always equals the current store followed by the incoming
widgets whose id is not already present. -/
lemma mergeInteractionFetch_eq_append (current batch : List WidgetData) :
    mergeInteractionFetch current batch =
      current ++ batch.filter
        (fun nw => !(current.map (fun w => w.id)).contains nw.id) := by
  unfold mergeInteractionFetch
  by_cases h : (batch.filter
      (fun nw => !(current.map (fun w => w.id)).contains nw.id)).length > 0
  · simp [h]
  · have h0 : (batch.filter
        (fun nw => !(current.map (fun w => w.id)).contains nw.id)).length = 0 := by
      omega
    rw [List.length_eq_zero] at h0
    simp [h0]

/-- The merged store length is the current length plus the number of
surviving incoming widgets. -/
lemma mergeInteractionFetch_length (current batch : List WidgetData) :
    (mergeInteractionFetch current batch).length =
      current.length + (batch.filter
        (fun nw => !(current.map (fun w => w.id)).contains nw.id)).length := by
  rw [mergeInteractionFetch_eq_append, List.length_append]

/-- The merged store ids are a sublist of the current ids followed by the
batch ids. -/
lemma storeIds_merge_sublist (current batch : List WidgetData) :
    List.Sublist (storeIds (mergeInteractionFetch current batch))
      (storeIds current ++ storeIds batch) := by
  rw [mergeInteractionFetch_eq_append]
  unfold storeIds
  rw [List.map_append]
  exact List.Sublist.append_left ((List.filter_sublist _).map _) _

/-- One store operation keeps the ids inside the old ids followed by the
ids of the delivered batch. -/
lemma storeIds_applyStoreOp_sublist (s : List WidgetData) (op : StoreOp) :
    List.Sublist (storeIds (applyStoreOp s op))
      (storeIds s ++ storeIds (opBatch op)) := by
  cases op with
  | initialLoad batch =>
      exact List.sublist_append_right _ _
  | fetchMore batch =>
      unfold applyStoreOp opBatch storeIds
      rw [List.map_append]
  | debounceMerge batch =>
      exact storeIds_merge_sublist s batch

/-- Running a session keeps the store ids inside the starting ids followed
by all generator outcomes consumed along the way. -/
lemma storeIds_foldl_sublist (ops : List StoreOp) (s : List WidgetData) :
    List.Sublist (storeIds (ops.foldl applyStoreOp s))
      (storeIds s ++ generatedIds ops) := by
  induction ops generalizing s with
  | nil =>
      simp [generatedIds]
  | cons op ops ih =>
      have h1 : List.Sublist (storeIds ((op :: ops).foldl applyStoreOp s))
          (storeIds (applyStoreOp s op) ++ generatedIds ops) := by
        simpa using ih (applyStoreOp s op)
      have h2 : List.Sublist (storeIds (applyStoreOp s op) ++ generatedIds ops)
          ((storeIds s ++ storeIds (opBatch op)) ++ generatedIds ops) :=
        List.Sublist.append_right (storeIds_applyStoreOp_sublist s op) _
      have h3 : generatedIds (op :: ops) =
          storeIds (opBatch op) ++ generatedIds ops := by
        simp [generatedIds]
      rw [h3, ← List.append_assoc]
      exact h1.trans h2

/-- Reachable canvas states have the in-flight count determined by the
loading flag. -/
lemma canvas_inflight_eq (s : CanvasFetchState) (h : CanvasReachable s) :
    s.inFlight = (if s.isLoadingWidgets then 1 else 0) := by
  induction h with
  | init => rfl
  | step u u' hr hstep ih =>
      cases hstep with
      | trigger =>
          simpa [triggerDebouncedFetchStep] using ih
      | timerFire hv =>
          unfold timerFireStep
          by_cases hl : u.isLoadingWidgets
          · simp_all
          · simp_all
      | fetchSuccess batch hv =>
          have hl : u.isLoadingWidgets = true := by
            by_contra hc
            simp only [Bool.not_eq_true] at hc
            rw [ih, hc] at hv
            simp at hv
          rw [ih] at hv
          rw [hl] at hv
          simp [fetchSuccessStep, ih, hl]
      | fetchError e hv =>
          have hl : u.isLoadingWidgets = true := by
            by_contra hc
            simp only [Bool.not_eq_true] at hc
            rw [ih, hc] at hv
            simp at hv
          rw [ih] at hv
          rw [hl] at hv
          simp [fetchErrorStep, ih, hl]

/-! ## Spec-side definitions for the culling claim -/

/-- Axis-aligned world rectangle. -/
structure WorldRect where
  left : ℚ
  right : ℚ
  top : ℚ
  bottom : ℚ
deriving DecidableEq, Repr

/-- From the spec: a widget has a fixed world footprint of 220 by 150. -/
def widgetRect (w : WidgetData) : WorldRect :=
  { left := w.x, right := w.x + 220, top := w.y, bottom := w.y + 150 }

/-- From the spec: the viewport world rectangle inflated by 100/zoom on
every side. -/
def inflatedViewportRect (t : CanvasTransform) (vw vh : ℚ) : WorldRect :=
  { left := -t.panX - 100 / t.zoom
    right := -t.panX + vw / t.zoom + 100 / t.zoom
    top := -t.panY - 100 / t.zoom
    bottom := -t.panY + vh / t.zoom + 100 / t.zoom }

/-- Proper axis-aligned overlap of two rectangles. -/
def properOverlap (a b : WorldRect) : Prop :=
  a.left < b.right ∧ b.left < a.right ∧ a.top < b.bottom ∧ b.top < a.bottom

/-- The first rectangle lies inside the second. -/
def fullyInside (a b : WorldRect) : Prop :=
  b.left ≤ a.left ∧ a.right ≤ b.right ∧ b.top ≤ a.top ∧ a.bottom ≤ b.bottom

/-- The rectangles are separated along some axis. -/
def fullyOutside (a b : WorldRect) : Prop :=
  a.right ≤ b.left ∨ b.right ≤ a.left ∨ a.bottom ≤ b.top ∨ b.bottom ≤ a.top

/-! ## Claim theorems -/

/-- C9: applying the pan handler with delta d1 and then with delta d2, at
constant zoom, yields the same transform as applying it once with d1+d2;
each application adds delta divided by the zoom to the pan and clamps
nothing. -/
theorem pan_linearity (t : CanvasTransform) (d1x d1y d2x d2y : ℚ) :
    handleMouseMove (handleMouseMove t d1x d1y) d2x d2y
      = handleMouseMove t (d1x + d2x) (d1y + d2y)
  ∧ (handleMouseMove t d1x d1y).panX = t.panX + d1x / t.zoom
  ∧ (handleMouseMove t d1x d1y).panY = t.panY + d1y / t.zoom
  ∧ (handleMouseMove t d1x d1y).zoom = t.zoom := by
  refine ⟨?_, rfl, rfl, rfl⟩
  simp only [handleMouseMove, CanvasTransform.mk.injEq]
  refine ⟨?_, ?_, trivial⟩
  · rw [add_div]
    ring
  · rw [add_div]
    ring

/-- C4: the debounced-fetch merge equals the current store followed by the
incoming widgets whose id is not yet present, in fetch order; when every
incoming id is already present the merge returns the current collection
itself; and the store size always grows by exactly the number of
surviving incoming widgets. -/
theorem merge_filters_and_appends (current batch : List WidgetData) :
    mergeInteractionFetch current batch
      = current ++ batch.filter
          (fun nw => !(current.map (fun w => w.id)).contains nw.id)
  ∧ ((∀ w ∈ batch, w.id ∈ current.map (fun w => w.id)) →
      mergeInteractionFetch current batch = current)
  ∧ (mergeInteractionFetch current batch).length
      = current.length + (batch.filter
          (fun nw => !(current.map (fun w => w.id)).contains nw.id)).length := by
  refine ⟨mergeInteractionFetch_eq_append current batch, ?_,
    mergeInteractionFetch_length current batch⟩
  intro hall
  rw [mergeInteractionFetch_eq_append]
  have hnil : batch.filter
      (fun nw => !(current.map (fun w => w.id)).contains nw.id) = [] := by
    rw [List.filter_eq_nil_iff]
    intro a ha
    simp only [Bool.not_eq_true', Bool.not_eq_false]
    exact List.elem_eq_true_of_mem (hall a ha)
  rw [hnil, List.append_nil]

/-- C3: the wheel handler's resulting zoom is the requested zoom (old
times 1.15 on wheel up, old divided by 1.15 on wheel down) clamped to the
interval from 0.1 to 10; a request below 0.1 or above 10 clamps to exactly
0.1 or 10; and when the clamped value equals the old zoom the handler
leaves the whole transform unchanged and schedules no debounced fetch. -/
theorem wheel_zoom_clamping (t : CanvasTransform) (deltaY px py : ℚ) :
    ((handleWheel t deltaY px py).1.zoom = clampZoom (wheelTargetZoom t deltaY))
  ∧ (deltaY < 0 → wheelTargetZoom t deltaY = t.zoom * 1.15)
  ∧ (0 ≤ deltaY → wheelTargetZoom t deltaY = t.zoom / 1.15)
  ∧ (wheelTargetZoom t deltaY < 0.1 → clampZoom (wheelTargetZoom t deltaY) = 0.1)
  ∧ (10 < wheelTargetZoom t deltaY → clampZoom (wheelTargetZoom t deltaY) = 10)
  ∧ (clampZoom (wheelTargetZoom t deltaY) = t.zoom →
      handleWheel t deltaY px py = (t, false)) := by
  refine ⟨?_, ?_, ?_, ?_, ?_, ?_⟩
  · by_cases h : clampZoom (wheelTargetZoom t deltaY) = t.zoom
    · simp [handleWheel, h]
    · simp [handleWheel, h]
  · intro h
    simp [wheelTargetZoom, zoomFactor, h]
  · intro h
    simp [wheelTargetZoom, zoomFactor, not_lt.mpr h]
  · intro h
    unfold clampZoom
    rw [min_eq_left (by linarith), max_eq_left (le_of_lt h)]
  · intro h
    unfold clampZoom
    rw [min_eq_right (le_of_lt h), max_eq_right (by norm_num)]
  · intro h
    simp [handleWheel, h]

/-- Witness for C3 at the upper zoom bound: at zoom 10, a further wheel-up
requests 11.5, clamps back to 10 and the handler is a no-op that schedules
no fetch. -/
theorem wheel_zoom_clamping_witness :
    wheelTargetZoom ⟨0, 0, 10⟩ (-1) = 10 * 1.15
  ∧ clampZoom (wheelTargetZoom ⟨0, 0, 10⟩ (-1)) = 10
  ∧ handleWheel ⟨0, 0, 10⟩ (-1) 5 7 = (⟨0, 0, 10⟩, false) := by
  have h := wheel_zoom_clamping ⟨0, 0, 10⟩ (-1) 5 7
  have htgt : (10 : ℚ) < wheelTargetZoom ⟨0, 0, 10⟩ (-1) := by
    norm_num [wheelTargetZoom, zoomFactor]
  have hclamp := h.2.2.2.2.1 htgt
  refine ⟨?_, hclamp, ?_⟩
  · simpa using h.2.1 (by norm_num)
  · exact h.2.2.2.2.2 hclamp

/-- C2: whenever the wheel handler actually changes the zoom, the world
point the handler computes for the cursor under the old transform maps
back to the very same screen point under the new transform (exactly, in
the rational model). -/
theorem zoom_to_cursor (t : CanvasTransform) (deltaY px py : ℚ)
    (hz1 : (0.1 : ℚ) ≤ t.zoom) (hz2 : t.zoom ≤ 10)
    (hne : clampZoom (wheelTargetZoom t deltaY) ≠ t.zoom) :
    screenOfWorld ((handleWheel t deltaY px py).1) (worldOfScreen t (px, py))
      = (px, py) := by
  have hc : (0 : ℚ) < clampZoom (wheelTargetZoom t deltaY) :=
    lt_of_lt_of_le (by norm_num) (le_max_left _ _)
  have hc0 : clampZoom (wheelTargetZoom t deltaY) ≠ 0 := ne_of_gt hc
  simp only [handleWheel, if_neg hne, screenOfWorld, worldOfScreen, Prod.mk.injEq]
  constructor
  · have h1 : px / t.zoom - t.panX +
        (px / clampZoom (wheelTargetZoom t deltaY) - (px / t.zoom - t.panX))
        = px / clampZoom (wheelTargetZoom t deltaY) := by ring
    rw [h1, div_mul_cancel₀ _ hc0]
  · have h1 : py / t.zoom - t.panY +
        (py / clampZoom (wheelTargetZoom t deltaY) - (py / t.zoom - t.panY))
        = py / clampZoom (wheelTargetZoom t deltaY) := by ring
    rw [h1, div_mul_cancel₀ _ hc0]

/-- Witness for C2: a concrete wheel-up at zoom 1 keeps the cursor's world
point under the cursor. -/
theorem zoom_to_cursor_witness :
    screenOfWorld ((handleWheel ⟨0, 0, 1⟩ (-1) 3 4).1)
      (worldOfScreen ⟨0, 0, 1⟩ (3, 4)) = (3, 4) :=
  zoom_to_cursor ⟨0, 0, 1⟩ (-1) 3 4 (by norm_num) (by norm_num)
    (by norm_num [clampZoom, wheelTargetZoom, zoomFactor])

/-- C8: for positive zoom, the culling predicate answers exactly proper
overlap between the widget's 220 by 150 world rectangle and the viewport's
world rectangle inflated by 100/zoom on every side; a widget fully outside
the inflated rectangle is not visible, one fully inside is visible, and a
straddling one (proper overlap) is visible. -/
theorem culling_matches_overlap (w : WidgetData) (t : CanvasTransform)
    (vw vh : ℚ) (hz : 0 < t.zoom) :
    (isWidgetInView w t vw vh = true ↔
      properOverlap (widgetRect w) (inflatedViewportRect t vw vh))
  ∧ (fullyOutside (widgetRect w) (inflatedViewportRect t vw vh) →
      isWidgetInView w t vw vh = false)
  ∧ (fullyInside (widgetRect w) (inflatedViewportRect t vw vh) →
      isWidgetInView w t vw vh = true) := by
  have hiff : isWidgetInView w t vw vh = true ↔
      properOverlap (widgetRect w) (inflatedViewportRect t vw vh) := by
    simp only [isWidgetInView, properOverlap, widgetRect, inflatedViewportRect,
      gt_iff_lt, decide_eq_true_eq]
  refine ⟨hiff, ?_, ?_⟩
  · intro hout
    by_contra hcon
    rw [Bool.not_eq_false] at hcon
    obtain ⟨h1, h2, h3, h4⟩ := hiff.mp hcon
    simp only [widgetRect, inflatedViewportRect, fullyOutside] at hout
    simp only [widgetRect, inflatedViewportRect] at h1 h2 h3 h4
    rcases hout with h | h | h | h <;> linarith
  · intro hin
    rw [hiff]
    simp only [widgetRect, inflatedViewportRect, fullyInside] at hin
    obtain ⟨h1, h2, h3, h4⟩ := hin
    simp only [widgetRect, inflatedViewportRect, properOverlap]
    refine ⟨by linarith, by linarith, by linarith, by linarith⟩

/-- A sample widget at the world origin. -/
def wOrigin : WidgetData :=
  { id := "a", title := "t", content := "c", x := 0, y := 0 }

/-- Witness for C8: at the identity transform with a 1000 by 1000
viewport, the origin widget lies fully inside the inflated viewport
rectangle and the culling predicate reports it visible. -/
theorem culling_matches_overlap_witness :
    isWidgetInView wOrigin ⟨0, 0, 1⟩ 1000 1000 = true :=
  (culling_matches_overlap wOrigin ⟨0, 0, 1⟩ 1000 1000 (by norm_num)).2.2
    (by norm_num [fullyInside, widgetRect, inflatedViewportRect, wOrigin])

/-- C6: a mock call (single-widget or batch) rejects exactly when its
Bernoulli draw lies below the current error probability; with the
probability at 1 every call rejects and with it at 0 no call rejects, for
any draw in the half-open unit interval. -/
theorem fetch_rejects_iff_bernoulli (rnd : FetchRandom) (errorRate : ℚ)
    (widgetId timestamp : String) (count : ℕ) (cx cy cz : ℚ)
    (h0 : 0 ≤ rnd.errDraw) (h1 : rnd.errDraw < 1) :
    (callRejected (fetchWidgetData rnd errorRate widgetId timestamp) = true ↔
      rnd.errDraw < errorRate)
  ∧ (callRejected (fetchAllWidgets rnd errorRate count cx cy cz timestamp) = true ↔
      rnd.errDraw < errorRate)
  ∧ (errorRate = 1 →
      callRejected (fetchWidgetData rnd errorRate widgetId timestamp) = true
    ∧ callRejected (fetchAllWidgets rnd errorRate count cx cy cz timestamp) = true)
  ∧ (errorRate = 0 →
      callRejected (fetchWidgetData rnd errorRate widgetId timestamp) = false
    ∧ callRejected (fetchAllWidgets rnd errorRate count cx cy cz timestamp) = false) := by
  have hw : callRejected (fetchWidgetData rnd errorRate widgetId timestamp)
      = shouldSimulateError rnd.errDraw errorRate := by
    unfold fetchWidgetData
    by_cases h : shouldSimulateError rnd.errDraw errorRate <;>
      simp [h, callRejected]
  have ha : callRejected (fetchAllWidgets rnd errorRate count cx cy cz timestamp)
      = shouldSimulateError rnd.errDraw errorRate := by
    unfold fetchAllWidgets
    by_cases h : shouldSimulateError rnd.errDraw errorRate <;>
      simp [h, callRejected]
  refine ⟨?_, ?_, ?_, ?_⟩
  · rw [hw]
    simp [shouldSimulateError]
  · rw [ha]
    simp [shouldSimulateError]
  · intro hr
    subst hr
    constructor
    · rw [hw]
      simp [shouldSimulateError, h1]
    · rw [ha]
      simp [shouldSimulateError, h1]
  · intro hr
    subst hr
    constructor
    · rw [hw]
      simp [shouldSimulateError, not_lt.mpr h0]
    · rw [ha]
      simp [shouldSimulateError, not_lt.mpr h0]

/-- A concrete randomness bundle with the error draw at one half. -/
def testRandom : FetchRandom :=
  { errDraw := 1/2, errPick := 0, stackLine1 := 0, stackLine2 := 0,
    genId := fun _ => "w", titleDraw := fun _ => 0, contentDraw := fun _ => 0,
    xDraw := fun _ => 0, yDraw := fun _ => 0 }

/-- Witness for C6: with the error probability at 1 and the draw at one
half, both mock operations reject. -/
theorem fetch_rejects_iff_bernoulli_witness :
    callRejected (fetchWidgetData testRandom (1 : ℚ) ("w1") ("ts")) = true
  ∧ callRejected (fetchAllWidgets testRandom (1 : ℚ) 2 0 0 1 ("ts")) = true :=
  (fetch_rejects_iff_bernoulli testRandom 1 ("w1") ("ts") 2 0 0 1
    (by norm_num [testRandom]) (by norm_num [testRandom])).2.2.1 rfl

/-- C5: when the debounce timer fires while the loading flag is set, the
fetch routine leaves the whole component state unchanged except that the
fired timer is consumed: no mock call starts (in-flight count unchanged),
the loading flag is not written again and nothing is re-queued; and along
every reachable execution at most one debounce-triggered fetch is in
flight. -/
theorem debounce_skip_and_single_flight :
    (∀ s : CanvasFetchState, s.isLoadingWidgets = true →
        timerFireStep s = { s with timerPending := false })
  ∧ (∀ s : CanvasFetchState, CanvasReachable s → s.inFlight ≤ 1) := by
  constructor
  · intro s h
    simp [timerFireStep, h]
  · intro s h
    rw [canvas_inflight_eq s h]
    by_cases hl : s.isLoadingWidgets <;> simp [hl]

/-- A state with a fetch in flight and the timer about to fire. -/
def loadingState : CanvasFetchState :=
  { widgets := [], isLoadingWidgets := true, apiError := none,
    timerPending := true, inFlight := 1 }

/-- Witness for C5: a concrete loading state is left untouched apart from
the consumed timer, and the mount state has at most one fetch in
flight. -/
theorem debounce_skip_and_single_flight_witness :
    timerFireStep loadingState = { loadingState with timerPending := false }
  ∧ initialCanvasState.inFlight ≤ 1 :=
  ⟨debounce_skip_and_single_flight.1 loadingState rfl,
   debounce_skip_and_single_flight.2 initialCanvasState CanvasReachable.init⟩

/-- C7: a debounce-triggered fetch that rejects leaves the widget store
exactly as it was, surfaces the error message in the user-visible error
slot, clears the loading flag, and schedules nothing new (no retry: the
in-flight count only drops and the timer state is untouched). -/
theorem fetch_error_leaves_store (s : CanvasFetchState) (e : SimulatedError) :
    (fetchErrorStep e s).widgets = s.widgets
  ∧ (fetchErrorStep e s).apiError = some ("Interaction fetch failed: " ++
      (if e.message = "" then "Unknown error" else e.message))
  ∧ (fetchErrorStep e s).isLoadingWidgets = false
  ∧ (fetchErrorStep e s).timerPending = s.timerPending
  ∧ (fetchErrorStep e s).inFlight = s.inFlight - 1 :=
  ⟨rfl, rfl, rfl, rfl, rfl⟩

/-- C10: the debounce-triggered fetch requests exactly one widget at the
current world view center, while the initial load requests five and the
manual fetch-more button requests three; and when such a count-one request
resolves, the merge grows the store by at most one entry. -/
theorem debounce_fetch_count_one (t : CanvasTransform) (vw vh : ℚ)
    (rnd : FetchRandom) (errorRate : ℚ) (ts : String) (s : List WidgetData) :
    (debounceFetchRequest t vw vh).count = 1
  ∧ (initialLoadRequest t vw vh).count = 5
  ∧ (fetchMoreRequest t vw vh).count = 3
  ∧ (∀ ws, fetchAllWidgets rnd errorRate (debounceFetchRequest t vw vh).count
        (debounceFetchRequest t vw vh).centerX (debounceFetchRequest t vw vh).centerY
        (debounceFetchRequest t vw vh).zoom ts = Except.ok ws →
      ws.length = 1 ∧ (mergeInteractionFetch s ws).length ≤ s.length + 1) := by
  refine ⟨rfl, rfl, rfl, ?_⟩
  intro ws hws
  unfold fetchAllWidgets at hws
  by_cases h : shouldSimulateError rnd.errDraw errorRate
  · rw [if_pos h] at hws
    exact absurd hws (by simp)
  · rw [if_neg h] at hws
    have hmap := Except.ok.inj hws
    have hlen : ws.length = 1 := by
      rw [← hmap, List.length_map, List.length_range]
      rfl
    refine ⟨hlen, ?_⟩
    rw [mergeInteractionFetch_length]
    have hfil := List.length_filter_le
      (fun nw => !(s.map (fun w => w.id)).contains nw.id) ws
    omega

/-- The batch the concrete count-one request of the witness resolves
with. -/
def testBatch : List WidgetData :=
  [{ id := "w", title := "Alpha Widget #1",
     content := "This is some detailed content for the widget.",
     x := -300, y := -300 }]

/-- Witness for C10: a concrete successful debounce-triggered fetch
returns one widget and grows the empty store by at most one. -/
theorem debounce_fetch_count_one_witness :
    testBatch.length = 1
  ∧ (mergeInteractionFetch [] testBatch).length ≤
      List.length ([] : List WidgetData) + 1 :=
  (debounce_fetch_count_one ⟨0, 0, 1⟩ 0 0 testRandom 0 ("ts") []).2.2.2
    testBatch (by
      have hc : ¬(shouldSimulateError testRandom.errDraw 0 = true) := by
        norm_num [shouldSimulateError, testRandom]
      unfold fetchAllWidgets
      rw [if_neg hc]
      have hr1 : List.range (debounceFetchRequest ⟨0, 0, 1⟩ 0 0).count = [0] := rfl
      simp only [Except.ok.injEq, hr1, List.map_cons, List.map_nil]
      unfold testBatch debounceFetchRequest spawnRadius
      norm_num [testRandom, MOCK_WIDGET_TITLES, MOCK_WIDGET_CONTENTS]
      all_goals decide)

/-- Witness for C4: merging a batch whose only id is already present
returns the current collection itself. -/
theorem merge_filters_and_appends_witness :
    mergeInteractionFetch [wOrigin] [wOrigin] = [wOrigin] :=
  (merge_filters_and_appends [wOrigin] [wOrigin]).2.1 (by decide)

/-- Widget whose identifier collides with itself across a batch. -/
def wDupA : WidgetData :=
  { id := "a", title := "t1", content := "c1", x := 1, y := 2 }

/-- Widget with a distinct identifier. -/
def wFreshB : WidgetData :=
  { id := "b", title := "t2", content := "c2", x := 3, y := 4 }

/-- C1 counterexample: when the random id generator yields the same id
twice inside one manual fetch-more batch, the Widget Store ends up with
two entries sharing that id, so the uniqueness invariant fails for that
outcome of the generator. -/
theorem store_unique_ids_counterexample :
    ¬ (storeIds (runStoreOps [StoreOp.fetchMore [wDupA, wDupA]])).Nodup := by
  decide

/-- C1 amended: provided all outcomes of the random id generator consumed
during the session are pairwise distinct, every reachable Widget Store
state (after any sequence of initial loads, manual fetch-mores and
debounce-triggered merges) holds pairwise distinct ids. -/
theorem store_unique_ids_of_distinct_generated (ops : List StoreOp)
    (h : (generatedIds ops).Nodup) :
    (storeIds (runStoreOps ops)).Nodup := by
  have hsub : List.Sublist (storeIds (runStoreOps ops)) (generatedIds ops) := by
    have hs := storeIds_foldl_sublist ops []
    simpa [runStoreOps, storeIds] using hs
  exact List.Nodup.sublist hsub h

/-- Witness for C1 amended: a session of an initial load followed by a
debounce merge with distinct generated ids yields a duplicate-free
store. -/
theorem store_unique_ids_of_distinct_generated_witness :
    (storeIds (runStoreOps
      [StoreOp.initialLoad [wDupA], StoreOp.debounceMerge [wFreshB]])).Nodup :=
  store_unique_ids_of_distinct_generated
    [StoreOp.initialLoad [wDupA], StoreOp.debounceMerge [wFreshB]] (by decide)

end SvelteOtelApp
